import Mathlib

/-!
Shallow embedding of the Teen English Learning backend (src/main.py and
src/schemas.py) and proofs about its heuristic engines: the pronunciation
similarity scorer, the tutor-chat grammar scanner, the activity auto-grader,
the student-registration validation, and the progress aggregator.

Conventions of the embedding:
* Python strings are Lean `String`s; `str.lower()` is `String.toLower`,
  `str.strip()` is `String.trim`.
* Python `s.split()` (no argument) splits on whitespace runs and drops empty
  pieces; it is modelled by splitting at every whitespace character and
  filtering out empty tokens.
* Python `set(...)` built from a list is modelled operationally as `List.dedup`
  (the code-level view) and extensionally as `List.toFinset` (the set view);
  the two views are related by proved lemmas.
* Python floats produced by the heuristics are modelled as `ℚ`; `round(x, n)`
  is modelled as decimal rounding to `n` places (`round` on `ℚ`).
* Fallible persistence operations are modelled as `Except String` values; a
  `try/except` that re-raises becomes error propagation, a `try/except: pass`
  becomes a `match` that discards the error.
-/

namespace TeenEnglish

/-- Splits a character list into maximal whitespace-free words, accumulating
the current word in reverse in `acc`; models the word splitting of Python
`str.split()` with no arguments (whitespace runs separate words, no empty
words are produced). -/
def splitWsAux : List Char → List Char → List (List Char)
  | [], acc => if acc = [] then [] else [acc.reverse]
  | c :: cs, acc =>
    if c.isWhitespace then
      if acc = [] then splitWsAux cs [] else acc.reverse :: splitWsAux cs []
    else splitWsAux cs (c :: acc)

/-- Models Python `str.lower()`: lowercase every character. -/
def pyLower (s : String) : String :=
  String.mk (s.toList.map Char.toLower)

/-- Models Python `str.strip()` with no arguments: drop whitespace from both
ends. -/
def pyStrip (s : String) : String :=
  String.mk (((s.toList.dropWhile Char.isWhitespace).reverse.dropWhile
    Char.isWhitespace).reverse)

/-- Models `payload.target.lower().split()` from `pronunciation_feedback`
(src/main.py line 149): lowercase the string and split it into whitespace
separated words. -/
def pyTokens (s : String) : List String :=
  (splitWsAux (pyLower s).toList []).map String.mk

/-- The token set of a string, the extensional view of
`set(payload.target.lower().split())`. -/
def tokenSet (s : String) : Finset String :=
  (pyTokens s).toFinset

/-- Code-level embedding of the similarity computation of
`pronunciation_feedback` (src/main.py lines 149-154): Python sets are
modelled as deduplicated lists, `len(t & s)` as the length of the filter of
one deduplicated list by membership in the other, `len(t | s)` as the length
of the deduplicated concatenation, and `if not target_tokens: sim = 0.0` as
the empty-list guard. -/
def simOfCode (target transcript : String) : ℚ :=
  if (pyTokens target).dedup = [] then 0
  else
    (((pyTokens target).dedup.filter
        (fun x => x ∈ (pyTokens transcript).dedup)).length : ℚ)
      / ((((pyTokens target).dedup ++ (pyTokens transcript).dedup).dedup).length : ℚ)

/-- Written from the spec of §4.4: Jaccard similarity = |intersection| /
|union| over the case-folded whitespace-token sets, defined as 0.0 when the
target has zero tokens. Compared against `simOfCode` by
`simOfCode_eq_jaccardSpec`. -/
def jaccardSpec (target transcript : String) : ℚ :=
  if tokenSet target = ∅ then 0
  else ((tokenSet target ∩ tokenSet transcript).card : ℚ)
      / ((tokenSet target ∪ tokenSet transcript).card : ℚ)

/-- Decimal rounding to 2 places, modelling Python `round(x, 2)` on the
similarity values. -/
def round2 (q : ℚ) : ℚ :=
  ((round (q * 100) : ℤ) : ℚ) / 100

/-- Decimal rounding to 1 place, modelling Python `round(x, 1)` on the
activity score. -/
def round1 (q : ℚ) : ℚ :=
  ((round (q * 10) : ℤ) : ℚ) / 10

/-- First corrective pronunciation tip (src/main.py line 158). -/
def slowDownTip : String := "Slow down and speak each word clearly."

/-- Second corrective pronunciation tip (src/main.py line 159). -/
def endingSoundsTip : String := "Pay attention to ending sounds like -s, -ed."

/-- Encouragement pronunciation tip (src/main.py line 161). -/
def intonationTip : String := "Great job! Try adding natural intonation."

/-- The advice branch of `pronunciation_feedback` (src/main.py lines
156-161): below the 0.6 threshold two corrective tips, otherwise one
encouragement tip. `0.6 = 3/5` as a rational. -/
def adviceFor (sim : ℚ) : List String :=
  if sim < 3 / 5 then [slowDownTip, endingSoundsTip] else [intonationTip]

/-- Response model of the pronunciation endpoint (src/main.py lines
142-144). -/
structure PronunciationFeedback where
  similarity : ℚ
  advice : List String
deriving DecidableEq, Repr

/-- The pronunciation endpoint `pronunciation_feedback` (src/main.py lines
146-168): computes the token-overlap similarity, picks the advice branch and
returns the similarity rounded to 2 decimal places together with the advice.
The best-effort persistence write does not affect the response and is
omitted. -/
def pronunciation_feedback (target transcript : String) : PronunciationFeedback :=
  { similarity := round2 (simOfCode target transcript)
    advice := adviceFor (simOfCode target transcript) }

theorem simOfCode_eq_jaccardSpec (a b : String) :
    simOfCode a b = jaccardSpec a b := by
  have hne : ((pyTokens a).dedup = []) ↔ ((pyTokens a).toFinset = ∅) := by
    rw [List.dedup_eq_nil, List.toFinset_eq_empty_iff]
  have hint : ((pyTokens a).dedup.filter
      (fun x => x ∈ (pyTokens b).dedup)).length
      = ((pyTokens a).toFinset ∩ (pyTokens b).toFinset).card := by
    have hnd : ((pyTokens a).dedup.filter
        (fun x => x ∈ (pyTokens b).dedup)).Nodup :=
      (List.nodup_dedup _).filter _
    rw [← List.toFinset_card_of_nodup hnd]
    congr 1
    ext x
    simp [List.mem_filter]
  have huni : ((((pyTokens a).dedup ++ (pyTokens b).dedup).dedup).length)
      = ((pyTokens a).toFinset ∪ (pyTokens b).toFinset).card := by
    rw [← List.card_toFinset]
    congr 1
    ext x
    simp
  unfold simOfCode jaccardSpec tokenSet
  by_cases h : (pyTokens a).toFinset = ∅
  · rw [if_pos (hne.mpr h), if_pos h]
  · rw [if_neg (fun hc => h (hne.mp hc)), if_neg h, hint, huni]

/-- C1: for every target and transcript, the pronunciation endpoint returns
as `similarity` exactly the Jaccard similarity over the case-folded
whitespace-token sets of the two strings, rounded to 2 decimal places, and
that similarity is 0 whenever the target has zero tokens. -/
theorem pronunciation_similarity_is_rounded_jaccard (target transcript : String) :
    (pronunciation_feedback target transcript).similarity
      = round2 (jaccardSpec target transcript)
    ∧ (tokenSet target = ∅ → jaccardSpec target transcript = 0) := by
  constructor
  · show round2 (simOfCode target transcript) = round2 (jaccardSpec target transcript)
    rw [simOfCode_eq_jaccardSpec]
  · intro h
    unfold jaccardSpec
    rw [if_pos h]

/-- Witness for C1 at concrete inputs, including the zero-token target case. -/
theorem pronunciation_similarity_is_rounded_jaccard_witness :
    (pronunciation_feedback "" "a dog").similarity
      = round2 (jaccardSpec "" "a dog")
    ∧ jaccardSpec "" "a dog" = 0 :=
  ⟨(pronunciation_similarity_is_rounded_jaccard "" "a dog").1,
   (pronunciation_similarity_is_rounded_jaccard "" "a dog").2 (by decide)⟩

/-- C4: for every target and transcript, exactly one advice branch fires:
similarity strictly below 0.6 yields exactly the two corrective tips, and
similarity at or above 0.6 yields exactly the single encouragement tip. -/
theorem pronunciation_advice_single_branch (target transcript : String) :
    (simOfCode target transcript < 3 / 5
      ∧ (pronunciation_feedback target transcript).advice
          = [slowDownTip, endingSoundsTip])
    ∨ (3 / 5 ≤ simOfCode target transcript
      ∧ (pronunciation_feedback target transcript).advice = [intonationTip]) := by
  by_cases h : simOfCode target transcript < 3 / 5
  · exact Or.inl ⟨h, by simp [pronunciation_feedback, adviceFor, if_pos h]⟩
  · exact Or.inr ⟨le_of_not_lt h,
      by simp [pronunciation_feedback, adviceFor, if_neg h]⟩

/-- C7: the pronunciation similarity is symmetric in target and transcript,
including the zero-token special case. -/
theorem pronunciation_similarity_symmetric (a b : String) :
    simOfCode a b = simOfCode b a := by
  rw [simOfCode_eq_jaccardSpec, simOfCode_eq_jaccardSpec]
  unfold jaccardSpec
  by_cases ha : tokenSet a = ∅ <;> by_cases hb : tokenSet b = ∅
  · rw [if_pos ha, if_pos hb]
  · rw [if_pos ha, if_neg hb, ha]
    simp
  · rw [if_neg ha, if_pos hb, hb]
    simp
  · rw [if_neg ha, if_neg hb, Finset.inter_comm, Finset.union_comm]

/-! ### Activity auto-grader (src/main.py lines 180-199, src/schemas.py lines 26-32) -/

/-- Feedback string of the low band (src/main.py line 188). -/
def reviewMsg : String := "Let\x27s review key vocabulary and try again."

/-- Feedback string of the middle band (src/main.py line 190). -/
def niceWorkMsg : String := "Nice work! A few small mistakes to fix."

/-- Feedback string of the high band (src/main.py line 192). -/
def excellentMsg : String := "Excellent! You\x27re mastering this topic."

/-- Models `non_empty = sum(1 for v in payload.answers.values() if
str(v).strip())` (src/main.py line 183); the answers mapping is embedded as
an association list of question key and answer string. -/
def nonEmptyCount (answers : List (String × String)) : Nat :=
  answers.countP (fun kv => pyStrip kv.2 ≠ "")

/-- Models `score = (non_empty / total) * 100` with
`total = max(len(payload.answers), 1)` (src/main.py lines 184-185). -/
def gradeScore (answers : List (String × String)) : ℚ :=
  ((nonEmptyCount answers : ℚ) / ((max answers.length 1 : ℕ) : ℚ)) * 100

/-- The feedback bands of `submit_activity` (src/main.py lines 186-192). -/
def feedbackFor (score : ℚ) : List String :=
  if score < 60 then [reviewMsg]
  else if score < 85 then [niceWorkMsg]
  else [excellentMsg]

/-- Response model of the activity endpoint (src/main.py lines 176-178). -/
structure ActivityFeedback where
  score : ℚ
  feedback : List String
deriving DecidableEq, Repr

/-- The activity endpoint `submit_activity` (src/main.py lines 180-199):
grades the answers, picks the feedback band from the raw score and returns
the score rounded to 1 decimal place. The best-effort persistence write does
not affect the response and is omitted. -/
def submit_activity (answers : List (String × String)) : ActivityFeedback :=
  { score := round1 (gradeScore answers)
    feedback := feedbackFor (gradeScore answers) }

/-- The score bound of the ActivityResult schema (src/schemas.py line 30):
`score: float = Field(..., ge=0, le=100)`. -/
def activityScoreOk (score : ℚ) : Bool :=
  decide (0 ≤ score) && decide (score ≤ 100)

/-- C2: on every score in [0,100] the three feedback bands are exhaustive
and mutually exclusive — the low band exactly when score < 60, the middle
band exactly when 60 ≤ score < 85, the high band exactly when 85 ≤ score —
and the feedback list always has exactly one entry. -/
theorem activity_feedback_bands_exhaustive (score : ℚ)
    (h0 : 0 ≤ score) (h100 : score ≤ 100) :
    (feedbackFor score).length = 1
    ∧ (feedbackFor score = [reviewMsg] ↔ score < 60)
    ∧ (feedbackFor score = [niceWorkMsg] ↔ (60 ≤ score ∧ score < 85))
    ∧ (feedbackFor score = [excellentMsg] ↔ 85 ≤ score) := by
  have hrn : reviewMsg ≠ niceWorkMsg := by decide
  have hre : reviewMsg ≠ excellentMsg := by decide
  have hne2 : niceWorkMsg ≠ excellentMsg := by decide
  unfold feedbackFor
  by_cases h1 : score < 60
  · rw [if_pos h1]
    exact ⟨rfl, iff_of_true rfl h1,
      iff_of_false (by simp [hrn]) (fun hc => absurd hc.1 (not_le.mpr h1)),
      iff_of_false (by simp [hre]) (not_le.mpr (h1.trans_le (by norm_num)))⟩
  · rw [if_neg h1]
    by_cases h2 : score < 85
    · rw [if_pos h2]
      exact ⟨rfl, iff_of_false (by simp [hrn.symm]) h1,
        iff_of_true rfl ⟨not_lt.mp h1, h2⟩,
        iff_of_false (by simp [hne2]) (not_le.mpr h2)⟩
    · rw [if_neg h2]
      exact ⟨rfl, iff_of_false (by simp [hre.symm]) h1,
        iff_of_false (by simp [hne2.symm]) (fun hc => absurd hc.2 h2),
        iff_of_true rfl (not_lt.mp h2)⟩

/-- Witness for C2 at the concrete score 70. -/
theorem activity_feedback_bands_exhaustive_witness :
    (feedbackFor 70).length = 1
    ∧ (feedbackFor 70 = [reviewMsg] ↔ (70 : ℚ) < 60)
    ∧ (feedbackFor 70 = [niceWorkMsg] ↔ ((60 : ℚ) ≤ 70 ∧ (70 : ℚ) < 85))
    ∧ (feedbackFor 70 = [excellentMsg] ↔ (85 : ℚ) ≤ 70) :=
  activity_feedback_bands_exhaustive 70 (by norm_num) (by norm_num)

/-- C5: the activity score is the number of answers whose trimmed string
form is non-empty over max(total, 1), scaled to a 0-100 percentage; for a
fixed total it is monotone in the number of non-empty answers; and on the
example answers q1=blue, q2 empty, q3=cat the endpoint returns score 66.7
and the nice-work feedback. -/
theorem activity_score_completeness :
    (∀ answers : List (String × String),
      gradeScore answers
        = ((((answers.map Prod.snd).filter (fun v => pyStrip v ≠ "")).length : ℚ)
            / ((max answers.length 1 : ℕ) : ℚ)) * 100)
    ∧ (∀ a1 a2 : List (String × String), a1.length = a2.length →
        nonEmptyCount a1 ≤ nonEmptyCount a2 → gradeScore a1 ≤ gradeScore a2)
    ∧ submit_activity [("q1", "blue"), ("q2", ""), ("q3", "cat")]
        = { score := 667 / 10, feedback := [niceWorkMsg] } := by
  refine ⟨?_, ?_, ?_⟩
  · intro answers
    unfold gradeScore nonEmptyCount
    rw [← List.countP_eq_length_filter, List.countP_map]
    rfl
  · intro a1 a2 hlen hcnt
    unfold gradeScore
    rw [hlen]
    have hd : (0 : ℚ) < ((max a2.length 1 : ℕ) : ℚ) := by
      have h1 : 0 < max a2.length 1 := Nat.lt_of_lt_of_le Nat.zero_lt_one (le_max_right _ _)
      exact_mod_cast h1
    exact mul_le_mul_of_nonneg_right
      ((div_le_div_iff_of_pos_right hd).mpr (by exact_mod_cast hcnt)) (by norm_num)
  · have h1 : nonEmptyCount [("q1", "blue"), ("q2", ""), ("q3", "cat")] = 2 := by
      decide
    have hg : gradeScore [("q1", "blue"), ("q2", ""), ("q3", "cat")] = 200 / 3 := by
      unfold gradeScore
      rw [h1]
      simp only [List.length_cons, List.length_nil]
      norm_num
    have hr : round ((200 : ℚ) / 3 * 10) = 667 := by
      rw [round_eq]
      have he : (200 : ℚ) / 3 * 10 + 1 / 2 = 4003 / 6 := by norm_num
      rw [he, Int.floor_eq_iff]
      constructor <;> norm_num
    have hf : feedbackFor ((200 : ℚ) / 3) = [niceWorkMsg] := by
      unfold feedbackFor
      rw [if_neg (by norm_num), if_pos (by norm_num)]
    unfold submit_activity round1
    rw [hg, hr, hf]
    norm_num

/-- Witness for C5: monotonicity applied at two concrete answer lists of
equal length. -/
theorem activity_score_completeness_witness :
    gradeScore [("q1", ""), ("q2", "x")] ≤ gradeScore [("q1", "a"), ("q2", "b")] :=
  activity_score_completeness.2.1 [("q1", ""), ("q2", "x")]
    [("q1", "a"), ("q2", "b")] (by decide) (by decide)

/-- C9: the grader's score always lies in [0,100], so the score bound of the
ActivityResult schema can never reject the record built by
`submit_activity`. -/
theorem activity_score_always_valid (answers : List (String × String)) :
    activityScoreOk (gradeScore answers) = true := by
  have hle : nonEmptyCount answers ≤ max answers.length 1 :=
    (List.countP_le_length _).trans (le_max_left _ _)
  have hd : (0 : ℚ) < ((max answers.length 1 : ℕ) : ℚ) := by
    have h1 : 0 < max answers.length 1 := Nat.lt_of_lt_of_le Nat.zero_lt_one (le_max_right _ _)
    exact_mod_cast h1
  have h0 : (0 : ℚ) ≤ gradeScore answers := by
    unfold gradeScore
    positivity
  have h100 : gradeScore answers ≤ 100 := by
    unfold gradeScore
    calc ((nonEmptyCount answers : ℚ) / ((max answers.length 1 : ℕ) : ℚ)) * 100
        ≤ 1 * 100 := by
          refine mul_le_mul_of_nonneg_right ?_ (by norm_num)
          exact (div_le_one hd).mpr (by exact_mod_cast hle)
      _ = 100 := one_mul _
  simp [activityScoreOk, h0, h100]

/-! ### Tutor chat heuristic (src/main.py lines 91-135) -/

/-- Does `pat` occur at the head of `text`? Helper for substring search. -/
def charsStartWith : List Char → List Char → Bool
  | [], _ => true
  | _ :: _, [] => false
  | p :: ps, t :: ts => p == t && charsStartWith ps ts

/-- Does `pat` occur contiguously anywhere in `text`? -/
def charsContain : List Char → List Char → Bool
  | [], pat => charsStartWith pat []
  | t :: ts, pat => charsStartWith pat (t :: ts) || charsContain ts pat

/-- Models Python `pat in text` on strings: contiguous substring
containment. -/
def strContains (text pat : String) : Bool :=
  charsContain text.toList pat.toList

/-- The known-bad phrase patterns (src/main.py line 112). -/
def badPhrases : List String := ["i is", "she go", "he go", "they was"]

/-- Subject-verb agreement tip (src/main.py line 113). -/
def svaTip : String :=
  "Subject-verb agreement: use \x27I am\x27, \x27she goes\x27, \x27they were\x27."

/-- Capitalization tip (src/main.py line 115). -/
def capitalizeTip : String := "Start sentences with a capital letter."

/-- Terminal punctuation tip (src/main.py line 117). -/
def punctuationTip : String := "End sentences with a period or question mark."

/-- Models `any(word in user_text.lower() for word in [...])`
(src/main.py line 112). -/
def hasBadPhrase (s : String) : Bool :=
  badPhrases.any (fun w => strContains (pyLower s) w)

/-- Models `user_text and user_text[0].islower()` (src/main.py line 114):
false on the empty string, otherwise whether the first character is a
lowercase letter. -/
def startsLowercase (s : String) : Bool :=
  match s.toList with
  | [] => false
  | c :: _ => c.isLower

/-- Models `user_text.endswith(('.', '!', '?'))` (src/main.py line 116):
false on the empty string, otherwise whether the last character is terminal
punctuation. -/
def endsWithTerminal (s : String) : Bool :=
  match s.toList.getLast? with
  | some c => c == '.' || c == '!' || c == '?'
  | none => false

/-- The grammar-hint pass of `tutor_chat` (src/main.py lines 111-117): the
three independent checks each append their tip. -/
def grammarNotes (user_text : String) : List String :=
  (if hasBadPhrase user_text then [svaTip] else [])
    ++ (if startsLowercase user_text then [capitalizeTip] else [])
    ++ (if endsWithTerminal user_text then [] else [punctuationTip])

/-- Reply template for the "favorite" keyword (src/main.py line 121). -/
def favoriteReply : String :=
  "Cool! Tell me more about your favorites. Why do you like them?"

/-- Reply template for the "school" keyword (src/main.py line 123). -/
def schoolReply : String :=
  "School can be fun and challenging. What\x27s your best subject and why?"

/-- The generic prompt-for-detail reply (src/main.py line 125). -/
def genericReply : String :=
  "Thanks for sharing! Can you add 1-2 more details in another sentence?"

/-- The reply-selection pass of `tutor_chat` (src/main.py lines 120-125). -/
def replyFor (user_text : String) : String :=
  if strContains (pyLower user_text) "favorite" then favoriteReply
  else if strContains (pyLower user_text) "school" then schoolReply
  else genericReply

/-- Response model of the chat endpoint (src/main.py lines 95-98). -/
structure TutorResponse where
  reply : String
  tips : List String
  grammar_notes : List String
deriving DecidableEq, Repr

/-- The chat endpoint `tutor_chat` (src/main.py lines 100-135): strips the
message, runs the grammar pass and the reply selection; `tips` stays empty
in this flow. The best-effort persistence writes do not affect the response
and are omitted. -/
def tutor_chat (message : String) : TutorResponse :=
  { reply := replyFor (pyStrip message)
    tips := []
    grammar_notes := grammarNotes (pyStrip message) }

/-- C6: the three grammar checks are independent and cumulative — each tip
is present in the notes exactly when its own check fires, so several tips
can appear together — and on the message "i is happy" all three tips appear,
in order. -/
theorem grammar_checks_cumulative :
    (∀ text : String,
      (svaTip ∈ grammarNotes text ↔ hasBadPhrase text = true)
      ∧ (capitalizeTip ∈ grammarNotes text ↔ startsLowercase text = true)
      ∧ (punctuationTip ∈ grammarNotes text ↔ endsWithTerminal text = false))
    ∧ (tutor_chat "i is happy").grammar_notes
        = [svaTip, capitalizeTip, punctuationTip] := by
  constructor
  · intro text
    have h1 : svaTip ≠ capitalizeTip := by decide
    have h2 : svaTip ≠ punctuationTip := by decide
    have h3 : capitalizeTip ≠ punctuationTip := by decide
    unfold grammarNotes
    cases hb : hasBadPhrase text <;> cases hs : startsLowercase text <;>
      cases he : endsWithTerminal text <;>
        simp [h1, h2, h3, h1.symm, h2.symm, h3.symm]
  · decide

/-- C10: a chat message that is empty after stripping gets exactly the
terminal-punctuation tip as its only grammar note and the generic
prompt-for-detail reply. -/
theorem empty_message_chat (msg : String) (h : pyStrip msg = "") :
    tutor_chat msg
      = { reply := genericReply, tips := [], grammar_notes := [punctuationTip] } := by
  unfold tutor_chat
  rw [h]
  decide

/-- Witness for C10 at a whitespace-only message. -/
theorem empty_message_chat_witness :
    tutor_chat "   "
      = { reply := genericReply, tips := [], grammar_notes := [punctuationTip] } :=
  empty_message_chat "   " (by decide)

/-! ### Student registration (src/schemas.py lines 12-17, src/main.py lines 72-78) -/

/-- The fields of an incoming Student payload (src/schemas.py lines 12-17)
before validation. -/
structure StudentInput where
  name : String
  age : Int
  level : String
  guardian_email : Option String
deriving DecidableEq, Repr

/-- The error text of a failed age bound. -/
def ageBoundError : String := "age must be between 10 and 15"

/-- The age bound of the Student schema (src/schemas.py line 14):
`age: int = Field(..., ge=10, le=15)`. FastAPI applies this validation to
the request payload before the endpoint body runs. -/
def validateStudent (inp : StudentInput) : Except String StudentInput :=
  if 10 ≤ inp.age ∧ inp.age ≤ 15 then Except.ok inp
  else Except.error ageBoundError

/-- The registration endpoint `create_student` (src/main.py lines 72-78)
composed with the schema validation that precedes it: a payload failing
validation never reaches the handler body, hence never reaches the store; a
valid payload is handed to the store and a store failure is re-raised (HTTP
500). The store is a parameter so that independence from it can be stated. -/
def create_student (store : StudentInput → Except String String)
    (inp : StudentInput) : Except String String :=
  match validateStudent inp with
  | Except.error e => Except.error e
  | Except.ok s => store s

/-- C8: a Student payload whose age lies outside [10,15] is rejected by the
schema validation before any storage operation — the outcome is the same
validation error for every possible store — while an age inside [10,15]
passes the age bound. -/
theorem student_age_validated_before_storage (inp : StudentInput) :
    ((inp.age < 10 ∨ 15 < inp.age) →
      ∀ store store' : StudentInput → Except String String,
        create_student store inp = create_student store' inp
        ∧ create_student store inp = Except.error ageBoundError)
    ∧ (10 ≤ inp.age → inp.age ≤ 15 → validateStudent inp = Except.ok inp) := by
  constructor
  · intro hout store store'
    have hv : validateStudent inp = Except.error ageBoundError := by
      unfold validateStudent
      rw [if_neg]
      rintro ⟨ha, hb⟩
      rcases hout with h | h
      · exact absurd ha (not_le.mpr h)
      · exact absurd hb (not_le.mpr h)
    unfold create_student
    rw [hv]
    exact ⟨rfl, rfl⟩
  · intro ha hb
    unfold validateStudent
    rw [if_pos ⟨ha, hb⟩]

/-- Witness for C8: a 20-year-old is rejected identically under two
different stores, and a 12-year-old passes the age bound. -/
theorem student_age_validated_witness :
    (create_student (fun _ => Except.ok "id1") ⟨"Max", 20, "A2", none⟩
        = create_student (fun _ => Except.error "boom") ⟨"Max", 20, "A2", none⟩
      ∧ create_student (fun _ => Except.ok "id1") ⟨"Max", 20, "A2", none⟩
        = Except.error ageBoundError)
    ∧ validateStudent ⟨"Mia", 12, "A2", none⟩
        = Except.ok ⟨"Mia", 12, "A2", none⟩ :=
  ⟨(student_age_validated_before_storage ⟨"Max", 20, "A2", none⟩).1
      (Or.inr (by norm_num)) (fun _ => Except.ok "id1") (fun _ => Except.error "boom"),
   (student_age_validated_before_storage ⟨"Mia", 12, "A2", none⟩).2
      (by norm_num) (by norm_num)⟩

/-! ### Progress aggregation (src/main.py lines 202-224) -/

/-- The four persistence reads `get_progress` performs (src/main.py lines
206-212), each as a fallible operation: three `count_documents` calls and
the `find` producing the stored similarity values. -/
structure ProgressStore where
  countActivity : Except String Nat
  countChat : Except String Nat
  countPron : Except String Nat
  findPronSims : Except String (List ℚ)

/-- Response of the progress endpoint (src/main.py lines 217-222). -/
structure ProgressResponse where
  student_id : String
  vocabulary_growth : Nat
  messages_exchanged : Nat
  avg_pronunciation_similarity : ℚ
deriving DecidableEq, Repr

/-- The inner `try` of `get_progress` (src/main.py lines 209-216): read the
similarities and average them when any exist; a failure of the read is
swallowed by `except Exception: pass`, leaving the average at its initial
0.0. -/
def avgPronOf (r : Except String (List ℚ)) : ℚ :=
  match r with
  | Except.ok sims => if sims ≠ [] then sims.sum / (sims.length : ℚ) else 0
  | Except.error _ => 0

/-- The progress endpoint `get_progress` (src/main.py lines 202-224): the
three counts run directly inside the outer `try`, whose exception is
re-raised as an HTTP 500; the find/average step runs inside the inner `try`
whose exception is swallowed. The pronunciation count is computed — and can
fail — but is not part of the response, exactly as in the code. -/
def get_progress (st : ProgressStore) (student_id : String) :
    Except String ProgressResponse :=
  match st.countActivity with
  | Except.error e => Except.error e
  | Except.ok vocab_growth =>
    match st.countChat with
    | Except.error e => Except.error e
    | Except.ok chats =>
      match st.countPron with
      | Except.error e => Except.error e
      | Except.ok _ =>
        Except.ok { student_id := student_id
                    vocabulary_growth := vocab_growth
                    messages_exchanged := chats
                    avg_pronunciation_similarity := round2 (avgPronOf st.findPronSims) }

/-- C3 counterexample: a persistence failure in the find/average step of the
read path is swallowed by the inner `except: pass` — the endpoint answers
successfully with average 0.0 instead of propagating a 500. -/
theorem progress_find_failure_swallowed :
    get_progress
        ⟨Except.ok 1, Except.ok 2, Except.ok 3, Except.error "connection reset"⟩ "s1"
      = Except.ok ⟨"s1", 1, 2, 0⟩ := by
  show Except.ok
      (⟨"s1", 1, 2,
        round2 (avgPronOf (Except.error "connection reset"))⟩ : ProgressResponse)
    = Except.ok (⟨"s1", 1, 2, 0⟩ : ProgressResponse)
  have h : round2 (avgPronOf (Except.error "connection reset" : Except String (List ℚ)))
      = 0 := by
    simp [avgPronOf, round2]
  rw [h]

/-- C3 amended: persistence exceptions raised by the three count operations
propagate to the caller as the server error, but an exception from the
find/average step does not: whenever the counts succeed the endpoint answers
successfully, with the average taken over the found similarities and falling
back to 0.0 when the find fails. -/
theorem progress_count_errors_propagate (st : ProgressStore) (sid : String) :
    (∀ e, st.countActivity = Except.error e →
      get_progress st sid = Except.error e)
    ∧ (∀ n e, st.countActivity = Except.ok n → st.countChat = Except.error e →
      get_progress st sid = Except.error e)
    ∧ (∀ n m e, st.countActivity = Except.ok n → st.countChat = Except.ok m →
      st.countPron = Except.error e → get_progress st sid = Except.error e)
    ∧ (∀ n m k, st.countActivity = Except.ok n → st.countChat = Except.ok m →
      st.countPron = Except.ok k →
      get_progress st sid
        = Except.ok ⟨sid, n, m, round2 (avgPronOf st.findPronSims)⟩) := by
  refine ⟨?_, ?_, ?_, ?_⟩
  · intro e h
    unfold get_progress
    rw [h]
  · intro n e h1 h2
    unfold get_progress
    rw [h1, h2]
  · intro n m e h1 h2 h3
    unfold get_progress
    rw [h1, h2, h3]
  · intro n m k h1 h2 h3
    unfold get_progress
    rw [h1, h2, h3]

/-- Witness for the amended C3: a failing activity count propagates its
error, and with all counts succeeding a failed find still yields a success
response. -/
theorem progress_count_errors_propagate_witness :
    (get_progress
        ⟨Except.error "db down", Except.ok 0, Except.ok 0, Except.ok []⟩ "s2"
      = Except.error "db down")
    ∧ (get_progress
        ⟨Except.ok 4, Except.ok 5, Except.ok 6, Except.error "timeout"⟩ "s2"
      = Except.ok ⟨"s2", 4, 5,
          round2 (avgPronOf (Except.error "timeout" : Except String (List ℚ)))⟩) :=
  ⟨(progress_count_errors_propagate
      ⟨Except.error "db down", Except.ok 0, Except.ok 0, Except.ok []⟩ "s2").1
        "db down" rfl,
   (progress_count_errors_propagate
      ⟨Except.ok 4, Except.ok 5, Except.ok 6, Except.error "timeout"⟩ "s2").2.2.2
        4 5 6 rfl rfl rfl⟩

end TeenEnglish
